import Mathlib

/-!
Shallow embedding of `calculate_planetary_parameters` from
`backend/server.py`.

The Python function takes ten numeric inputs, validates each against a
closed interval (raising `ValueError` with a message naming the field on
the first violation, in source order D, M, T, P, W, B, θ, R, G, X),
computes six habitability factors, forms the reciprocal of their product
(Python raises `ZeroDivisionError` when that product is zero), and
returns a dictionary echoing the inputs together with the rounded
probability of life.

Numbers are modelled by `ℝ` (exact arithmetic); the two Python runtime
errors are modelled by an explicit error type, so the function returns
`Except Err Report`.
-/

namespace Habitability

/-- Runtime errors of the Python function: `ValueError` carrying its
message, and `ZeroDivisionError` from `1 / 0`. -/
inductive Err where
  | validation (msg : String)
  | zeroDivision
deriving DecidableEq

/-- The result dictionary of `calculate_planetary_parameters`: the ten
echoed inputs (water presence as a string) plus the derived
habitability probability. -/
structure Report where
  distanceFromSun : ℝ
  planetaryMass : ℝ
  surfaceTemperature : ℝ
  atmosphericPressure : ℝ
  waterPresence : String
  magneticFieldStrength : ℝ
  axialTilt : ℝ
  rotationSpeed : ℝ
  geologicalActivity : ℝ
  radiationLevels : ℝ
  habitabilityProbability : ℝ

/-- Message of the `ValueError` raised for an out-of-range D. -/
def msgD : String := "Distance from Sun (D) must be between 0.3 and 30 AU."

/-- Message of the `ValueError` raised for an out-of-range M. -/
def msgM : String := "Planetary Mass (M) must be between 0.1 and 300 Earth masses."

/-- Message of the `ValueError` raised for an out-of-range T. -/
def msgT : String := "Surface Temperature (T) must be between 50 and 900 K."

/-- Message of the `ValueError` raised for an out-of-range P. -/
def msgP : String := "Atmospheric Pressure (P) must be between 10^-5 and 100 bars."

/-- Message of the `ValueError` raised for an invalid W. -/
def msgW : String := "Water Presence (W) must be either 0 (No) or 1 (Yes)."

/-- Message of the `ValueError` raised for an out-of-range B. -/
def msgB : String := "Magnetic Field Strength (B) must be between 0 and 15 G."

/-- Message of the `ValueError` raised for an out-of-range θ. -/
def msgTheta : String := "Axial Tilt (θ) must be between 0 and 98 degrees."

/-- Message of the `ValueError` raised for an out-of-range R. -/
def msgR : String := "Rotation Speed (R) must be between 1 and 5832 hours."

/-- Message of the `ValueError` raised for an out-of-range G. -/
def msgG : String := "Geological Activity (G) must be between 0 and 1."

/-- Message of the `ValueError` raised for an out-of-range X. -/
def msgX : String := "Radiation Levels (X) must be between 0.01 and 1000 Sv."

/-- Temperature factor: `min(1, max(0, math.exp(-abs(T - T_E) / T_E)))`
with `T_E = 288`. -/
noncomputable def f_T (T : ℝ) : ℝ := min 1 (max 0 (Real.exp (-|T - 288| / 288)))

/-- Atmospheric factor: `P / (1 + P)`. -/
noncomputable def f_P (P : ℝ) : ℝ := P / (1 + P)

/-- Magnetic field factor: `B / (B + 1)`. -/
noncomputable def f_B (B : ℝ) : ℝ := B / (B + 1)

/-- Radiation survival factor: `math.exp(-X)`. -/
noncomputable def f_X (X : ℝ) : ℝ := Real.exp (-X)

/-- Python `round(x, 2)`: scale by 100, round to the nearest integer,
scale back.  (CPython rounds ties to even; `round` here rounds ties up.
The two agree off ties, and every value this development evaluates is an
exact integer, never a tie.) -/
noncomputable def round2 (x : ℝ) : ℝ := (round (x * 100) : ℤ) / 100

/-- Embedding of `calculate_planetary_parameters(D, M, T, P, W, B, θ, R, G, X)`.
The ten `if` conditions are the source's validation chain in source
order; the factor product's zero test models Python raising
`ZeroDivisionError` at `C = 1 / (f_T * f_P * f_W * f_B * f_G * f_X)`
(the source itself has no such test).  The water factor `f_W` is `W`
itself and the geological factor `f_G` is `G` itself, as in the source. -/
noncomputable def calculate_planetary_parameters (D M T P W B θ R G X : ℝ) :
    Except Err Report :=
  if ¬(0.3 ≤ D ∧ D ≤ 30) then .error (.validation msgD)
  else if ¬(0.1 ≤ M ∧ M ≤ 300) then .error (.validation msgM)
  else if ¬(50 ≤ T ∧ T ≤ 900) then .error (.validation msgT)
  else if ¬(1 / 100000 ≤ P ∧ P ≤ 100) then .error (.validation msgP)
  else if ¬(W = 0 ∨ W = 1) then .error (.validation msgW)
  else if ¬(0 ≤ B ∧ B ≤ 15) then .error (.validation msgB)
  else if ¬(0 ≤ θ ∧ θ ≤ 98) then .error (.validation msgTheta)
  else if ¬(1 ≤ R ∧ R ≤ 5832) then .error (.validation msgR)
  else if ¬(0 ≤ G ∧ G ≤ 1) then .error (.validation msgG)
  else if ¬(1 / 100 ≤ X ∧ X ≤ 1000) then .error (.validation msgX)
  else if f_T T * f_P P * W * f_B B * G * f_X X = 0 then .error .zeroDivision
  else
    let C := 1 / (f_T T * f_P P * W * f_B B * G * f_X X)
    let P_L := 100 * C * f_T T * f_P P * W * f_B B * G * f_X X
    .ok {
      distanceFromSun := D
      planetaryMass := M
      surfaceTemperature := T
      atmosphericPressure := P
      waterPresence := if W = 1 then "Yes" else "No"
      magneticFieldStrength := B
      axialTilt := θ
      rotationSpeed := R
      geologicalActivity := G
      radiationLevels := X
      habitabilityProbability := round2 P_L }

/-- A call that returned the dictionary rather than raising. -/
def isOk : Except Err Report → Bool
  | .ok _ => true
  | .error _ => false

/-- The temperature factor is strictly positive for every real T. -/
theorem f_T_pos (T : ℝ) : 0 < f_T T := by
  unfold f_T
  exact lt_min one_pos (lt_max_of_lt_right (Real.exp_pos _))

/-- The clamp in the temperature factor is inert: the exponential
already lies in (0, 1]. -/
theorem f_T_eq (T : ℝ) : f_T T = Real.exp (-|T - 288| / 288) := by
  unfold f_T
  rw [max_eq_right (Real.exp_pos _).le, min_eq_right]
  have hle : -|T - 288| / 288 ≤ 0 :=
    div_nonpos_iff.mpr (Or.inr ⟨neg_nonpos.mpr (abs_nonneg _), by norm_num⟩)
  exact (Real.exp_le_exp.mpr hle).trans_eq Real.exp_zero

/-- The temperature factor is 1 exactly at the Earth reference 288 K. -/
theorem f_T_eq_one_iff (T : ℝ) : f_T T = 1 ↔ T = 288 := by
  rw [f_T_eq, Real.exp_eq_one_iff, div_eq_zero_iff, neg_eq_zero, abs_eq_zero,
    sub_eq_zero]
  norm_num

/-- Away from 288 K the temperature factor is strictly below 1. -/
theorem f_T_lt_one (T : ℝ) (h : T ≠ 288) : f_T T < 1 := by
  rw [f_T_eq]
  have hlt : -|T - 288| / 288 < 0 := by
    apply div_neg_of_neg_of_pos
    · exact neg_lt_zero.mpr (abs_pos.mpr (sub_ne_zero.mpr h))
    · norm_num
  exact (Real.exp_lt_exp.mpr hlt).trans_eq Real.exp_zero

/-- The atmospheric factor is strictly positive for positive pressure. -/
theorem f_P_pos (P : ℝ) (hP : 0 < P) : 0 < f_P P := div_pos hP (by linarith)

/-- The magnetic factor vanishes exactly at B = 0 on the validated
domain. -/
theorem f_B_eq_zero_iff (B : ℝ) (hB : 0 ≤ B) : f_B B = 0 ↔ B = 0 := by
  unfold f_B
  rw [div_eq_zero_iff]
  constructor
  · rintro (h | h)
    · exact h
    · linarith
  · exact fun h => Or.inl h

/-- The radiation factor is strictly positive for every real X. -/
theorem f_X_pos (X : ℝ) : 0 < f_X X := Real.exp_pos _

/-- Validation fails on D: the call raises the D message. -/
theorem calc_error_D (D M T P W B θ R G X : ℝ)
    (hD : ¬(0.3 ≤ D ∧ D ≤ 30)) :
    calculate_planetary_parameters D M T P W B θ R G X =
      .error (.validation msgD) := by
  unfold calculate_planetary_parameters
  rw [if_pos hD]

/-- D valid, M invalid: the call raises the M message. -/
theorem calc_error_M (D M T P W B θ R G X : ℝ)
    (hD : 0.3 ≤ D ∧ D ≤ 30) (hM : ¬(0.1 ≤ M ∧ M ≤ 300)) :
    calculate_planetary_parameters D M T P W B θ R G X =
      .error (.validation msgM) := by
  unfold calculate_planetary_parameters
  rw [if_neg (not_not_intro hD), if_pos hM]

/-- D, M valid, T invalid: the call raises the T message. -/
theorem calc_error_T (D M T P W B θ R G X : ℝ)
    (hD : 0.3 ≤ D ∧ D ≤ 30) (hM : 0.1 ≤ M ∧ M ≤ 300)
    (hT : ¬(50 ≤ T ∧ T ≤ 900)) :
    calculate_planetary_parameters D M T P W B θ R G X =
      .error (.validation msgT) := by
  unfold calculate_planetary_parameters
  rw [if_neg (not_not_intro hD), if_neg (not_not_intro hM), if_pos hT]

/-- D through T valid, P invalid: the call raises the P message. -/
theorem calc_error_P (D M T P W B θ R G X : ℝ)
    (hD : 0.3 ≤ D ∧ D ≤ 30) (hM : 0.1 ≤ M ∧ M ≤ 300)
    (hT : 50 ≤ T ∧ T ≤ 900) (hP : ¬(1 / 100000 ≤ P ∧ P ≤ 100)) :
    calculate_planetary_parameters D M T P W B θ R G X =
      .error (.validation msgP) := by
  unfold calculate_planetary_parameters
  rw [if_neg (not_not_intro hD), if_neg (not_not_intro hM),
    if_neg (not_not_intro hT), if_pos hP]

/-- D through P valid, W invalid: the call raises the W message. -/
theorem calc_error_W (D M T P W B θ R G X : ℝ)
    (hD : 0.3 ≤ D ∧ D ≤ 30) (hM : 0.1 ≤ M ∧ M ≤ 300)
    (hT : 50 ≤ T ∧ T ≤ 900) (hP : 1 / 100000 ≤ P ∧ P ≤ 100)
    (hW : ¬(W = 0 ∨ W = 1)) :
    calculate_planetary_parameters D M T P W B θ R G X =
      .error (.validation msgW) := by
  unfold calculate_planetary_parameters
  rw [if_neg (not_not_intro hD), if_neg (not_not_intro hM),
    if_neg (not_not_intro hT), if_neg (not_not_intro hP), if_pos hW]

/-- D through W valid, B invalid: the call raises the B message. -/
theorem calc_error_B (D M T P W B θ R G X : ℝ)
    (hD : 0.3 ≤ D ∧ D ≤ 30) (hM : 0.1 ≤ M ∧ M ≤ 300)
    (hT : 50 ≤ T ∧ T ≤ 900) (hP : 1 / 100000 ≤ P ∧ P ≤ 100)
    (hW : W = 0 ∨ W = 1) (hB : ¬(0 ≤ B ∧ B ≤ 15)) :
    calculate_planetary_parameters D M T P W B θ R G X =
      .error (.validation msgB) := by
  unfold calculate_planetary_parameters
  rw [if_neg (not_not_intro hD), if_neg (not_not_intro hM),
    if_neg (not_not_intro hT), if_neg (not_not_intro hP),
    if_neg (not_not_intro hW), if_pos hB]

/-- D through B valid, θ invalid: the call raises the θ message. -/
theorem calc_error_Theta (D M T P W B θ R G X : ℝ)
    (hD : 0.3 ≤ D ∧ D ≤ 30) (hM : 0.1 ≤ M ∧ M ≤ 300)
    (hT : 50 ≤ T ∧ T ≤ 900) (hP : 1 / 100000 ≤ P ∧ P ≤ 100)
    (hW : W = 0 ∨ W = 1) (hB : 0 ≤ B ∧ B ≤ 15)
    (hθ : ¬(0 ≤ θ ∧ θ ≤ 98)) :
    calculate_planetary_parameters D M T P W B θ R G X =
      .error (.validation msgTheta) := by
  unfold calculate_planetary_parameters
  rw [if_neg (not_not_intro hD), if_neg (not_not_intro hM),
    if_neg (not_not_intro hT), if_neg (not_not_intro hP),
    if_neg (not_not_intro hW), if_neg (not_not_intro hB), if_pos hθ]

/-- D through θ valid, R invalid: the call raises the R message. -/
theorem calc_error_R (D M T P W B θ R G X : ℝ)
    (hD : 0.3 ≤ D ∧ D ≤ 30) (hM : 0.1 ≤ M ∧ M ≤ 300)
    (hT : 50 ≤ T ∧ T ≤ 900) (hP : 1 / 100000 ≤ P ∧ P ≤ 100)
    (hW : W = 0 ∨ W = 1) (hB : 0 ≤ B ∧ B ≤ 15)
    (hθ : 0 ≤ θ ∧ θ ≤ 98) (hR : ¬(1 ≤ R ∧ R ≤ 5832)) :
    calculate_planetary_parameters D M T P W B θ R G X =
      .error (.validation msgR) := by
  unfold calculate_planetary_parameters
  rw [if_neg (not_not_intro hD), if_neg (not_not_intro hM),
    if_neg (not_not_intro hT), if_neg (not_not_intro hP),
    if_neg (not_not_intro hW), if_neg (not_not_intro hB),
    if_neg (not_not_intro hθ), if_pos hR]

/-- D through R valid, G invalid: the call raises the G message. -/
theorem calc_error_G (D M T P W B θ R G X : ℝ)
    (hD : 0.3 ≤ D ∧ D ≤ 30) (hM : 0.1 ≤ M ∧ M ≤ 300)
    (hT : 50 ≤ T ∧ T ≤ 900) (hP : 1 / 100000 ≤ P ∧ P ≤ 100)
    (hW : W = 0 ∨ W = 1) (hB : 0 ≤ B ∧ B ≤ 15)
    (hθ : 0 ≤ θ ∧ θ ≤ 98) (hR : 1 ≤ R ∧ R ≤ 5832)
    (hG : ¬(0 ≤ G ∧ G ≤ 1)) :
    calculate_planetary_parameters D M T P W B θ R G X =
      .error (.validation msgG) := by
  unfold calculate_planetary_parameters
  rw [if_neg (not_not_intro hD), if_neg (not_not_intro hM),
    if_neg (not_not_intro hT), if_neg (not_not_intro hP),
    if_neg (not_not_intro hW), if_neg (not_not_intro hB),
    if_neg (not_not_intro hθ), if_neg (not_not_intro hR), if_pos hG]

/-- D through G valid, X invalid: the call raises the X message. -/
theorem calc_error_X (D M T P W B θ R G X : ℝ)
    (hD : 0.3 ≤ D ∧ D ≤ 30) (hM : 0.1 ≤ M ∧ M ≤ 300)
    (hT : 50 ≤ T ∧ T ≤ 900) (hP : 1 / 100000 ≤ P ∧ P ≤ 100)
    (hW : W = 0 ∨ W = 1) (hB : 0 ≤ B ∧ B ≤ 15)
    (hθ : 0 ≤ θ ∧ θ ≤ 98) (hR : 1 ≤ R ∧ R ≤ 5832)
    (hG : 0 ≤ G ∧ G ≤ 1) (hX : ¬(1 / 100 ≤ X ∧ X ≤ 1000)) :
    calculate_planetary_parameters D M T P W B θ R G X =
      .error (.validation msgX) := by
  unfold calculate_planetary_parameters
  rw [if_neg (not_not_intro hD), if_neg (not_not_intro hM),
    if_neg (not_not_intro hT), if_neg (not_not_intro hP),
    if_neg (not_not_intro hW), if_neg (not_not_intro hB),
    if_neg (not_not_intro hθ), if_neg (not_not_intro hR),
    if_neg (not_not_intro hG), if_pos hX]

/-- On fully validated inputs, the call reduces to the zero test on the
factor product followed by the report. -/
theorem calc_of_valid (D M T P W B θ R G X : ℝ)
    (hD : 0.3 ≤ D ∧ D ≤ 30) (hM : 0.1 ≤ M ∧ M ≤ 300)
    (hT : 50 ≤ T ∧ T ≤ 900) (hP : 1 / 100000 ≤ P ∧ P ≤ 100)
    (hW : W = 0 ∨ W = 1) (hB : 0 ≤ B ∧ B ≤ 15)
    (hθ : 0 ≤ θ ∧ θ ≤ 98) (hR : 1 ≤ R ∧ R ≤ 5832)
    (hG : 0 ≤ G ∧ G ≤ 1) (hX : 1 / 100 ≤ X ∧ X ≤ 1000) :
    calculate_planetary_parameters D M T P W B θ R G X =
      if f_T T * f_P P * W * f_B B * G * f_X X = 0 then .error .zeroDivision
      else .ok {
        distanceFromSun := D
        planetaryMass := M
        surfaceTemperature := T
        atmosphericPressure := P
        waterPresence := if W = 1 then "Yes" else "No"
        magneticFieldStrength := B
        axialTilt := θ
        rotationSpeed := R
        geologicalActivity := G
        radiationLevels := X
        habitabilityProbability := round2
          (100 * (1 / (f_T T * f_P P * W * f_B B * G * f_X X)) *
            f_T T * f_P P * W * f_B B * G * f_X X) } := by
  unfold calculate_planetary_parameters
  rw [if_neg (not_not_intro hD), if_neg (not_not_intro hM),
    if_neg (not_not_intro hT), if_neg (not_not_intro hP),
    if_neg (not_not_intro hW), if_neg (not_not_intro hB),
    if_neg (not_not_intro hθ), if_neg (not_not_intro hR),
    if_neg (not_not_intro hG), if_neg (not_not_intro hX)]

/-- The per-call normalizing constant cancels the factor product
exactly whenever the product is nonzero. -/
theorem normalization_cancels (a b c d e f : ℝ)
    (h : a * b * c * d * e * f ≠ 0) :
    100 * (1 / (a * b * c * d * e * f)) * a * b * c * d * e * f = 100 := by
  have hrw : 100 * (1 / (a * b * c * d * e * f)) * a * b * c * d * e * f =
      100 * ((a * b * c * d * e * f) / (a * b * c * d * e * f)) := by ring
  rw [hrw, div_self h, mul_one]

/-- Rounding the exact value 100 to two decimals returns 100. -/
theorem round2_100 : round2 100 = 100 := by
  unfold round2
  rw [show ((100 : ℝ) * 100) = ((10000 : ℤ) : ℝ) by norm_num, round_intCast]
  norm_num

/-- On validated inputs with nonzero factor product, the call succeeds
and the probability field is exactly 100. -/
theorem calc_ok (D M T P W B θ R G X : ℝ)
    (hD : 0.3 ≤ D ∧ D ≤ 30) (hM : 0.1 ≤ M ∧ M ≤ 300)
    (hT : 50 ≤ T ∧ T ≤ 900) (hP : 1 / 100000 ≤ P ∧ P ≤ 100)
    (hW : W = 0 ∨ W = 1) (hB : 0 ≤ B ∧ B ≤ 15)
    (hθ : 0 ≤ θ ∧ θ ≤ 98) (hR : 1 ≤ R ∧ R ≤ 5832)
    (hG : 0 ≤ G ∧ G ≤ 1) (hX : 1 / 100 ≤ X ∧ X ≤ 1000)
    (hprod : f_T T * f_P P * W * f_B B * G * f_X X ≠ 0) :
    calculate_planetary_parameters D M T P W B θ R G X =
      .ok {
        distanceFromSun := D
        planetaryMass := M
        surfaceTemperature := T
        atmosphericPressure := P
        waterPresence := if W = 1 then "Yes" else "No"
        magneticFieldStrength := B
        axialTilt := θ
        rotationSpeed := R
        geologicalActivity := G
        radiationLevels := X
        habitabilityProbability := 100 } := by
  rw [calc_of_valid D M T P W B θ R G X hD hM hT hP hW hB hθ hR hG hX,
    if_neg hprod, normalization_cancels _ _ _ _ _ _ hprod, round2_100]

/-- Inversion: a successful call implies all ten validations passed,
the factor product is nonzero, and the report is the echoed record with
probability exactly 100. -/
theorem calc_ok_inv (D M T P W B θ R G X : ℝ) (rep : Report)
    (h : calculate_planetary_parameters D M T P W B θ R G X = .ok rep) :
    (0.3 ≤ D ∧ D ≤ 30) ∧ (0.1 ≤ M ∧ M ≤ 300) ∧ (50 ≤ T ∧ T ≤ 900) ∧
    (1 / 100000 ≤ P ∧ P ≤ 100) ∧ (W = 0 ∨ W = 1) ∧ (0 ≤ B ∧ B ≤ 15) ∧
    (0 ≤ θ ∧ θ ≤ 98) ∧ (1 ≤ R ∧ R ≤ 5832) ∧ (0 ≤ G ∧ G ≤ 1) ∧
    (1 / 100 ≤ X ∧ X ≤ 1000) ∧
    f_T T * f_P P * W * f_B B * G * f_X X ≠ 0 ∧
    rep = {
      distanceFromSun := D
      planetaryMass := M
      surfaceTemperature := T
      atmosphericPressure := P
      waterPresence := if W = 1 then "Yes" else "No"
      magneticFieldStrength := B
      axialTilt := θ
      rotationSpeed := R
      geologicalActivity := G
      radiationLevels := X
      habitabilityProbability := 100 } := by
  have hD : 0.3 ≤ D ∧ D ≤ 30 := by
    by_contra hc
    rw [calc_error_D D M T P W B θ R G X hc] at h
    exact Except.noConfusion h
  have hM : 0.1 ≤ M ∧ M ≤ 300 := by
    by_contra hc
    rw [calc_error_M D M T P W B θ R G X hD hc] at h
    exact Except.noConfusion h
  have hT : 50 ≤ T ∧ T ≤ 900 := by
    by_contra hc
    rw [calc_error_T D M T P W B θ R G X hD hM hc] at h
    exact Except.noConfusion h
  have hP : 1 / 100000 ≤ P ∧ P ≤ 100 := by
    by_contra hc
    rw [calc_error_P D M T P W B θ R G X hD hM hT hc] at h
    exact Except.noConfusion h
  have hW : W = 0 ∨ W = 1 := by
    by_contra hc
    rw [calc_error_W D M T P W B θ R G X hD hM hT hP hc] at h
    exact Except.noConfusion h
  have hB : 0 ≤ B ∧ B ≤ 15 := by
    by_contra hc
    rw [calc_error_B D M T P W B θ R G X hD hM hT hP hW hc] at h
    exact Except.noConfusion h
  have hθ : 0 ≤ θ ∧ θ ≤ 98 := by
    by_contra hc
    rw [calc_error_Theta D M T P W B θ R G X hD hM hT hP hW hB hc] at h
    exact Except.noConfusion h
  have hR : 1 ≤ R ∧ R ≤ 5832 := by
    by_contra hc
    rw [calc_error_R D M T P W B θ R G X hD hM hT hP hW hB hθ hc] at h
    exact Except.noConfusion h
  have hG : 0 ≤ G ∧ G ≤ 1 := by
    by_contra hc
    rw [calc_error_G D M T P W B θ R G X hD hM hT hP hW hB hθ hR hc] at h
    exact Except.noConfusion h
  have hX : 1 / 100 ≤ X ∧ X ≤ 1000 := by
    by_contra hc
    rw [calc_error_X D M T P W B θ R G X hD hM hT hP hW hB hθ hR hG hc] at h
    exact Except.noConfusion h
  have hprod : f_T T * f_P P * W * f_B B * G * f_X X ≠ 0 := by
    intro h0
    rw [calc_of_valid D M T P W B θ R G X hD hM hT hP hW hB hθ hR hG hX,
      if_pos h0] at h
    exact Except.noConfusion h
  rw [calc_ok D M T P W B θ R G X hD hM hT hP hW hB hθ hR hG hX hprod] at h
  simp only [Except.ok.injEq] at h
  exact ⟨hD, hM, hT, hP, hW, hB, hθ, hR, hG, hX, hprod, h.symm⟩

/-- The factor product at the Earth-like profile used as a concrete
test input is nonzero. -/
theorem earth_prod_ne_zero :
    f_T 288 * f_P 1 * (1 : ℝ) * f_B (1 / 2) * 1 * f_X (1 / 100) ≠ 0 := by
  have h1 := f_T_pos 288
  have h2 : (0 : ℝ) < f_P 1 := f_P_pos 1 one_pos
  have h3 : (0 : ℝ) < f_B (1 / 2) := by unfold f_B; norm_num
  have h4 := f_X_pos (1 / 100)
  exact ne_of_gt
    (mul_pos (mul_pos (mul_pos (mul_pos (mul_pos h1 h2) one_pos) h3) one_pos) h4)

/-- C1: on any validated profile whose six habitability factors are all
strictly positive, the call succeeds and the habitability probability
field is exactly 100, because the per-call constant C cancels the
factor product. -/
theorem C1_habitability_always_100 (D M T P W B θ R G X : ℝ)
    (hD : 0.3 ≤ D ∧ D ≤ 30) (hM : 0.1 ≤ M ∧ M ≤ 300)
    (hT : 50 ≤ T ∧ T ≤ 900) (hP : 1 / 100000 ≤ P ∧ P ≤ 100)
    (hW : W = 0 ∨ W = 1) (hB : 0 ≤ B ∧ B ≤ 15)
    (hθ : 0 ≤ θ ∧ θ ≤ 98) (hR : 1 ≤ R ∧ R ≤ 5832)
    (hG : 0 ≤ G ∧ G ≤ 1) (hX : 1 / 100 ≤ X ∧ X ≤ 1000)
    (hfT : 0 < f_T T) (hfP : 0 < f_P P) (hfW : 0 < W)
    (hfB : 0 < f_B B) (hfG : 0 < G) (hfX : 0 < f_X X) :
    ∃ rep, calculate_planetary_parameters D M T P W B θ R G X = .ok rep ∧
      rep.habitabilityProbability = 100 := by
  have hprod : f_T T * f_P P * W * f_B B * G * f_X X ≠ 0 :=
    ne_of_gt
      (mul_pos (mul_pos (mul_pos (mul_pos (mul_pos hfT hfP) hfW) hfB) hfG) hfX)
  exact ⟨_, calc_ok D M T P W B θ R G X hD hM hT hP hW hB hθ hR hG hX hprod, rfl⟩

/-- C1 witness: the Earth-like profile of §8 of the spec scores exactly
100. -/
theorem C1_habitability_always_100_witness :
    ∃ rep, calculate_planetary_parameters 1 1 288 1 1 (1 / 2) 23 24 1 (1 / 100) =
      .ok rep ∧ rep.habitabilityProbability = 100 :=
  C1_habitability_always_100 1 1 288 1 1 (1 / 2) 23 24 1 (1 / 100)
    (by norm_num) (by norm_num) (by norm_num) (by norm_num) (Or.inr rfl)
    (by norm_num) (by norm_num) (by norm_num) (by norm_num) (by norm_num)
    (f_T_pos 288) (f_P_pos 1 one_pos) one_pos (by unfold f_B; norm_num)
    one_pos (f_X_pos (1 / 100))

/-- C2: at the spec's own W = 0 example profile the code reaches the
reciprocal with a zero factor product and raises ZeroDivisionError — an
unhandled arithmetic fault, not a DegenerateInputError and not a
0-valued result. -/
theorem C2_zero_water_zero_division :
    calculate_planetary_parameters 1 1 288 1 0 (1 / 2) 23 24 1 (1 / 100) =
      .error .zeroDivision := by
  have h0 : f_T 288 * f_P 1 * (0 : ℝ) * f_B (1 / 2) * 1 * f_X (1 / 100) = 0 := by
    ring
  rw [calc_of_valid 1 1 288 1 0 (1 / 2) 23 24 1 (1 / 100)
    (by norm_num) (by norm_num) (by norm_num) (by norm_num) (Or.inl rfl)
    (by norm_num) (by norm_num) (by norm_num) (by norm_num) (by norm_num),
    if_pos h0]

/-- C3 counterexample: B = 0 sits exactly at the boundary of the
magnetic-field interval [0, 15] and passes validation, yet the call does
not succeed — the magnetic factor is zero, so the reciprocal raises
ZeroDivisionError. -/
theorem C3_boundary_counterexample :
    isOk (calculate_planetary_parameters 1 1 288 1 1 0 23 24 1 (1 / 100)) =
      false := by
  have h0 : f_T 288 * f_P 1 * (1 : ℝ) * f_B 0 * 1 * f_X (1 / 100) = 0 := by
    unfold f_B
    norm_num
  rw [calc_of_valid 1 1 288 1 1 0 23 24 1 (1 / 100)
    (by norm_num) (by norm_num) (by norm_num) (by norm_num) (Or.inr rfl)
    (by norm_num) (by norm_num) (by norm_num) (by norm_num) (by norm_num),
    if_pos h0]
  rfl

/-- C3 (amended): a value strictly outside a field's closed interval,
the other nine fields being in range, raises the ValidationError naming
that field; a boundary value passes validation, and the call then
succeeds provided the factor product is nonzero. -/
theorem C3_interval_validation (D M T P W B θ R G X : ℝ) :
    ((0.1 ≤ M ∧ M ≤ 300) → (50 ≤ T ∧ T ≤ 900) → (1 / 100000 ≤ P ∧ P ≤ 100) →
      (W = 0 ∨ W = 1) → (0 ≤ B ∧ B ≤ 15) → (0 ≤ θ ∧ θ ≤ 98) →
      (1 ≤ R ∧ R ≤ 5832) → (0 ≤ G ∧ G ≤ 1) → (1 / 100 ≤ X ∧ X ≤ 1000) →
      ¬(0.3 ≤ D ∧ D ≤ 30) →
      calculate_planetary_parameters D M T P W B θ R G X =
        .error (.validation msgD)) ∧
    ((0.3 ≤ D ∧ D ≤ 30) → (50 ≤ T ∧ T ≤ 900) → (1 / 100000 ≤ P ∧ P ≤ 100) →
      (W = 0 ∨ W = 1) → (0 ≤ B ∧ B ≤ 15) → (0 ≤ θ ∧ θ ≤ 98) →
      (1 ≤ R ∧ R ≤ 5832) → (0 ≤ G ∧ G ≤ 1) → (1 / 100 ≤ X ∧ X ≤ 1000) →
      ¬(0.1 ≤ M ∧ M ≤ 300) →
      calculate_planetary_parameters D M T P W B θ R G X =
        .error (.validation msgM)) ∧
    ((0.3 ≤ D ∧ D ≤ 30) → (0.1 ≤ M ∧ M ≤ 300) → (1 / 100000 ≤ P ∧ P ≤ 100) →
      (W = 0 ∨ W = 1) → (0 ≤ B ∧ B ≤ 15) → (0 ≤ θ ∧ θ ≤ 98) →
      (1 ≤ R ∧ R ≤ 5832) → (0 ≤ G ∧ G ≤ 1) → (1 / 100 ≤ X ∧ X ≤ 1000) →
      ¬(50 ≤ T ∧ T ≤ 900) →
      calculate_planetary_parameters D M T P W B θ R G X =
        .error (.validation msgT)) ∧
    ((0.3 ≤ D ∧ D ≤ 30) → (0.1 ≤ M ∧ M ≤ 300) → (50 ≤ T ∧ T ≤ 900) →
      (W = 0 ∨ W = 1) → (0 ≤ B ∧ B ≤ 15) → (0 ≤ θ ∧ θ ≤ 98) →
      (1 ≤ R ∧ R ≤ 5832) → (0 ≤ G ∧ G ≤ 1) → (1 / 100 ≤ X ∧ X ≤ 1000) →
      ¬(1 / 100000 ≤ P ∧ P ≤ 100) →
      calculate_planetary_parameters D M T P W B θ R G X =
        .error (.validation msgP)) ∧
    ((0.3 ≤ D ∧ D ≤ 30) → (0.1 ≤ M ∧ M ≤ 300) → (50 ≤ T ∧ T ≤ 900) →
      (1 / 100000 ≤ P ∧ P ≤ 100) → (0 ≤ B ∧ B ≤ 15) → (0 ≤ θ ∧ θ ≤ 98) →
      (1 ≤ R ∧ R ≤ 5832) → (0 ≤ G ∧ G ≤ 1) → (1 / 100 ≤ X ∧ X ≤ 1000) →
      ¬(W = 0 ∨ W = 1) →
      calculate_planetary_parameters D M T P W B θ R G X =
        .error (.validation msgW)) ∧
    ((0.3 ≤ D ∧ D ≤ 30) → (0.1 ≤ M ∧ M ≤ 300) → (50 ≤ T ∧ T ≤ 900) →
      (1 / 100000 ≤ P ∧ P ≤ 100) → (W = 0 ∨ W = 1) → (0 ≤ θ ∧ θ ≤ 98) →
      (1 ≤ R ∧ R ≤ 5832) → (0 ≤ G ∧ G ≤ 1) → (1 / 100 ≤ X ∧ X ≤ 1000) →
      ¬(0 ≤ B ∧ B ≤ 15) →
      calculate_planetary_parameters D M T P W B θ R G X =
        .error (.validation msgB)) ∧
    ((0.3 ≤ D ∧ D ≤ 30) → (0.1 ≤ M ∧ M ≤ 300) → (50 ≤ T ∧ T ≤ 900) →
      (1 / 100000 ≤ P ∧ P ≤ 100) → (W = 0 ∨ W = 1) → (0 ≤ B ∧ B ≤ 15) →
      (1 ≤ R ∧ R ≤ 5832) → (0 ≤ G ∧ G ≤ 1) → (1 / 100 ≤ X ∧ X ≤ 1000) →
      ¬(0 ≤ θ ∧ θ ≤ 98) →
      calculate_planetary_parameters D M T P W B θ R G X =
        .error (.validation msgTheta)) ∧
    ((0.3 ≤ D ∧ D ≤ 30) → (0.1 ≤ M ∧ M ≤ 300) → (50 ≤ T ∧ T ≤ 900) →
      (1 / 100000 ≤ P ∧ P ≤ 100) → (W = 0 ∨ W = 1) → (0 ≤ B ∧ B ≤ 15) →
      (0 ≤ θ ∧ θ ≤ 98) → (0 ≤ G ∧ G ≤ 1) → (1 / 100 ≤ X ∧ X ≤ 1000) →
      ¬(1 ≤ R ∧ R ≤ 5832) →
      calculate_planetary_parameters D M T P W B θ R G X =
        .error (.validation msgR)) ∧
    ((0.3 ≤ D ∧ D ≤ 30) → (0.1 ≤ M ∧ M ≤ 300) → (50 ≤ T ∧ T ≤ 900) →
      (1 / 100000 ≤ P ∧ P ≤ 100) → (W = 0 ∨ W = 1) → (0 ≤ B ∧ B ≤ 15) →
      (0 ≤ θ ∧ θ ≤ 98) → (1 ≤ R ∧ R ≤ 5832) → (1 / 100 ≤ X ∧ X ≤ 1000) →
      ¬(0 ≤ G ∧ G ≤ 1) →
      calculate_planetary_parameters D M T P W B θ R G X =
        .error (.validation msgG)) ∧
    ((0.3 ≤ D ∧ D ≤ 30) → (0.1 ≤ M ∧ M ≤ 300) → (50 ≤ T ∧ T ≤ 900) →
      (1 / 100000 ≤ P ∧ P ≤ 100) → (W = 0 ∨ W = 1) → (0 ≤ B ∧ B ≤ 15) →
      (0 ≤ θ ∧ θ ≤ 98) → (1 ≤ R ∧ R ≤ 5832) → (0 ≤ G ∧ G ≤ 1) →
      ¬(1 / 100 ≤ X ∧ X ≤ 1000) →
      calculate_planetary_parameters D M T P W B θ R G X =
        .error (.validation msgX)) ∧
    ((0.3 ≤ D ∧ D ≤ 30) → (0.1 ≤ M ∧ M ≤ 300) → (50 ≤ T ∧ T ≤ 900) →
      (1 / 100000 ≤ P ∧ P ≤ 100) → (W = 0 ∨ W = 1) → (0 ≤ B ∧ B ≤ 15) →
      (0 ≤ θ ∧ θ ≤ 98) → (1 ≤ R ∧ R ≤ 5832) → (0 ≤ G ∧ G ≤ 1) →
      (1 / 100 ≤ X ∧ X ≤ 1000) →
      f_T T * f_P P * W * f_B B * G * f_X X ≠ 0 →
      ∃ rep, calculate_planetary_parameters D M T P W B θ R G X = .ok rep) := by
  refine ⟨?_, ?_, ?_, ?_, ?_, ?_, ?_, ?_, ?_, ?_, ?_⟩
  · exact fun _ _ _ _ _ _ _ _ _ hD => calc_error_D D M T P W B θ R G X hD
  · exact fun hD _ _ _ _ _ _ _ _ hM => calc_error_M D M T P W B θ R G X hD hM
  · exact fun hD hM _ _ _ _ _ _ _ hT => calc_error_T D M T P W B θ R G X hD hM hT
  · exact fun hD hM hT _ _ _ _ _ _ hP =>
      calc_error_P D M T P W B θ R G X hD hM hT hP
  · exact fun hD hM hT hP _ _ _ _ _ hW =>
      calc_error_W D M T P W B θ R G X hD hM hT hP hW
  · exact fun hD hM hT hP hW _ _ _ _ hB =>
      calc_error_B D M T P W B θ R G X hD hM hT hP hW hB
  · exact fun hD hM hT hP hW hB _ _ _ hθ =>
      calc_error_Theta D M T P W B θ R G X hD hM hT hP hW hB hθ
  · exact fun hD hM hT hP hW hB hθ _ _ hR =>
      calc_error_R D M T P W B θ R G X hD hM hT hP hW hB hθ hR
  · exact fun hD hM hT hP hW hB hθ hR _ hG =>
      calc_error_G D M T P W B θ R G X hD hM hT hP hW hB hθ hR hG
  · exact fun hD hM hT hP hW hB hθ hR hG hX =>
      calc_error_X D M T P W B θ R G X hD hM hT hP hW hB hθ hR hG hX
  · exact fun hD hM hT hP hW hB hθ hR hG hX hprod =>
      ⟨_, calc_ok D M T P W B θ R G X hD hM hT hP hW hB hθ hR hG hX hprod⟩

/-- C3 witness: D = 0.29 (just outside [0.3, 30]) raises the D message,
while the boundary value D = 0.3 with the otherwise Earth-like profile
succeeds. -/
theorem C3_interval_validation_witness :
    calculate_planetary_parameters 0.29 1 288 1 1 (1 / 2) 23 24 1 (1 / 100) =
      .error (.validation msgD) ∧
    ∃ rep, calculate_planetary_parameters 0.3 1 288 1 1 (1 / 2) 23 24 1 (1 / 100) =
      .ok rep :=
  ⟨(C3_interval_validation 0.29 1 288 1 1 (1 / 2) 23 24 1 (1 / 100)).1
      (by norm_num) (by norm_num) (by norm_num) (Or.inr rfl) (by norm_num)
      (by norm_num) (by norm_num) (by norm_num) (by norm_num) (by norm_num),
    (C3_interval_validation 0.3 1 288 1 1 (1 / 2) 23 24 1 (1 / 100)).2.2.2.2.2.2.2.2.2.2
      (by norm_num) (by norm_num) (by norm_num) (by norm_num) (Or.inr rfl)
      (by norm_num) (by norm_num) (by norm_num) (by norm_num) (by norm_num)
      earth_prod_ne_zero⟩

/-- C4: validation checks the ten fields in the fixed source order
D, M, T, P, W, B, θ, R, G, X and the raised error names the first
out-of-range field, whatever the later fields contain. -/
theorem C4_first_violation_named (D M T P W B θ R G X : ℝ) :
    (¬(0.3 ≤ D ∧ D ≤ 30) →
      calculate_planetary_parameters D M T P W B θ R G X =
        .error (.validation msgD)) ∧
    ((0.3 ≤ D ∧ D ≤ 30) → ¬(0.1 ≤ M ∧ M ≤ 300) →
      calculate_planetary_parameters D M T P W B θ R G X =
        .error (.validation msgM)) ∧
    ((0.3 ≤ D ∧ D ≤ 30) → (0.1 ≤ M ∧ M ≤ 300) → ¬(50 ≤ T ∧ T ≤ 900) →
      calculate_planetary_parameters D M T P W B θ R G X =
        .error (.validation msgT)) ∧
    ((0.3 ≤ D ∧ D ≤ 30) → (0.1 ≤ M ∧ M ≤ 300) → (50 ≤ T ∧ T ≤ 900) →
      ¬(1 / 100000 ≤ P ∧ P ≤ 100) →
      calculate_planetary_parameters D M T P W B θ R G X =
        .error (.validation msgP)) ∧
    ((0.3 ≤ D ∧ D ≤ 30) → (0.1 ≤ M ∧ M ≤ 300) → (50 ≤ T ∧ T ≤ 900) →
      (1 / 100000 ≤ P ∧ P ≤ 100) → ¬(W = 0 ∨ W = 1) →
      calculate_planetary_parameters D M T P W B θ R G X =
        .error (.validation msgW)) ∧
    ((0.3 ≤ D ∧ D ≤ 30) → (0.1 ≤ M ∧ M ≤ 300) → (50 ≤ T ∧ T ≤ 900) →
      (1 / 100000 ≤ P ∧ P ≤ 100) → (W = 0 ∨ W = 1) → ¬(0 ≤ B ∧ B ≤ 15) →
      calculate_planetary_parameters D M T P W B θ R G X =
        .error (.validation msgB)) ∧
    ((0.3 ≤ D ∧ D ≤ 30) → (0.1 ≤ M ∧ M ≤ 300) → (50 ≤ T ∧ T ≤ 900) →
      (1 / 100000 ≤ P ∧ P ≤ 100) → (W = 0 ∨ W = 1) → (0 ≤ B ∧ B ≤ 15) →
      ¬(0 ≤ θ ∧ θ ≤ 98) →
      calculate_planetary_parameters D M T P W B θ R G X =
        .error (.validation msgTheta)) ∧
    ((0.3 ≤ D ∧ D ≤ 30) → (0.1 ≤ M ∧ M ≤ 300) → (50 ≤ T ∧ T ≤ 900) →
      (1 / 100000 ≤ P ∧ P ≤ 100) → (W = 0 ∨ W = 1) → (0 ≤ B ∧ B ≤ 15) →
      (0 ≤ θ ∧ θ ≤ 98) → ¬(1 ≤ R ∧ R ≤ 5832) →
      calculate_planetary_parameters D M T P W B θ R G X =
        .error (.validation msgR)) ∧
    ((0.3 ≤ D ∧ D ≤ 30) → (0.1 ≤ M ∧ M ≤ 300) → (50 ≤ T ∧ T ≤ 900) →
      (1 / 100000 ≤ P ∧ P ≤ 100) → (W = 0 ∨ W = 1) → (0 ≤ B ∧ B ≤ 15) →
      (0 ≤ θ ∧ θ ≤ 98) → (1 ≤ R ∧ R ≤ 5832) → ¬(0 ≤ G ∧ G ≤ 1) →
      calculate_planetary_parameters D M T P W B θ R G X =
        .error (.validation msgG)) ∧
    ((0.3 ≤ D ∧ D ≤ 30) → (0.1 ≤ M ∧ M ≤ 300) → (50 ≤ T ∧ T ≤ 900) →
      (1 / 100000 ≤ P ∧ P ≤ 100) → (W = 0 ∨ W = 1) → (0 ≤ B ∧ B ≤ 15) →
      (0 ≤ θ ∧ θ ≤ 98) → (1 ≤ R ∧ R ≤ 5832) → (0 ≤ G ∧ G ≤ 1) →
      ¬(1 / 100 ≤ X ∧ X ≤ 1000) →
      calculate_planetary_parameters D M T P W B θ R G X =
        .error (.validation msgX)) :=
  ⟨calc_error_D D M T P W B θ R G X,
    calc_error_M D M T P W B θ R G X,
    calc_error_T D M T P W B θ R G X,
    calc_error_P D M T P W B θ R G X,
    calc_error_W D M T P W B θ R G X,
    calc_error_B D M T P W B θ R G X,
    calc_error_Theta D M T P W B θ R G X,
    calc_error_R D M T P W B θ R G X,
    calc_error_G D M T P W B θ R G X,
    calc_error_X D M T P W B θ R G X⟩

/-- C4 witness: with both D = 0 and T = 1000 out of range, the error
names D, the earliest invalid field in source order. -/
theorem C4_first_violation_named_witness :
    calculate_planetary_parameters 0 1 1000 1 1 (1 / 2) 23 24 1 (1 / 100) =
      .error (.validation msgD) :=
  (C4_first_violation_named 0 1 1000 1 1 (1 / 2) 23 24 1 (1 / 100)).1
    (by norm_num)

/-- C5: with the four earlier fields in range, the call raises the
water-presence ValidationError exactly when W is neither 0 nor 1. -/
theorem C5_water_accepted_iff (D M T P W B θ R G X : ℝ)
    (hD : 0.3 ≤ D ∧ D ≤ 30) (hM : 0.1 ≤ M ∧ M ≤ 300)
    (hT : 50 ≤ T ∧ T ≤ 900) (hP : 1 / 100000 ≤ P ∧ P ≤ 100) :
    calculate_planetary_parameters D M T P W B θ R G X =
      .error (.validation msgW) ↔ ¬(W = 0 ∨ W = 1) := by
  constructor
  · intro h
    by_contra hW
    by_cases hB : 0 ≤ B ∧ B ≤ 15
    case neg =>
      rw [calc_error_B D M T P W B θ R G X hD hM hT hP hW hB] at h
      simp only [Except.error.injEq, Err.validation.injEq] at h
      exact absurd h (by decide)
    by_cases hθ : 0 ≤ θ ∧ θ ≤ 98
    case neg =>
      rw [calc_error_Theta D M T P W B θ R G X hD hM hT hP hW hB hθ] at h
      simp only [Except.error.injEq, Err.validation.injEq] at h
      exact absurd h (by decide)
    by_cases hR : 1 ≤ R ∧ R ≤ 5832
    case neg =>
      rw [calc_error_R D M T P W B θ R G X hD hM hT hP hW hB hθ hR] at h
      simp only [Except.error.injEq, Err.validation.injEq] at h
      exact absurd h (by decide)
    by_cases hG : 0 ≤ G ∧ G ≤ 1
    case neg =>
      rw [calc_error_G D M T P W B θ R G X hD hM hT hP hW hB hθ hR hG] at h
      simp only [Except.error.injEq, Err.validation.injEq] at h
      exact absurd h (by decide)
    by_cases hX : 1 / 100 ≤ X ∧ X ≤ 1000
    case neg =>
      rw [calc_error_X D M T P W B θ R G X hD hM hT hP hW hB hθ hR hG hX] at h
      simp only [Except.error.injEq, Err.validation.injEq] at h
      exact absurd h (by decide)
    by_cases hprod : f_T T * f_P P * W * f_B B * G * f_X X = 0
    · rw [calc_of_valid D M T P W B θ R G X hD hM hT hP hW hB hθ hR hG hX,
        if_pos hprod] at h
      simp only [Except.error.injEq] at h
      exact Err.noConfusion h
    · rw [calc_ok D M T P W B θ R G X hD hM hT hP hW hB hθ hR hG hX hprod] at h
      exact Except.noConfusion h
  · exact calc_error_W D M T P W B θ R G X hD hM hT hP

/-- C5 witness: W = 2 with the other fields Earth-like raises the
water-presence ValidationError. -/
theorem C5_water_accepted_iff_witness :
    calculate_planetary_parameters 1 1 288 1 2 (1 / 2) 23 24 1 (1 / 100) =
      .error (.validation msgW) :=
  (C5_water_accepted_iff 1 1 288 1 2 (1 / 2) 23 24 1 (1 / 100)
    (by norm_num) (by norm_num) (by norm_num) (by norm_num)).mpr (by norm_num)

/-- C6: mass and axial tilt never enter the score — two validated
non-degenerate profiles differing only in M and θ get equal
habitability probabilities. -/
theorem C6_mass_tilt_do_not_affect_score (D T P W B R G X M M' θ θ' : ℝ)
    (hD : 0.3 ≤ D ∧ D ≤ 30) (hM : 0.1 ≤ M ∧ M ≤ 300)
    (hM' : 0.1 ≤ M' ∧ M' ≤ 300) (hT : 50 ≤ T ∧ T ≤ 900)
    (hP : 1 / 100000 ≤ P ∧ P ≤ 100) (hW : W = 0 ∨ W = 1)
    (hB : 0 ≤ B ∧ B ≤ 15) (hθ : 0 ≤ θ ∧ θ ≤ 98) (hθ' : 0 ≤ θ' ∧ θ' ≤ 98)
    (hR : 1 ≤ R ∧ R ≤ 5832) (hG : 0 ≤ G ∧ G ≤ 1)
    (hX : 1 / 100 ≤ X ∧ X ≤ 1000)
    (hprod : f_T T * f_P P * W * f_B B * G * f_X X ≠ 0) :
    ∃ rep rep',
      calculate_planetary_parameters D M T P W B θ R G X = .ok rep ∧
      calculate_planetary_parameters D M' T P W B θ' R G X = .ok rep' ∧
      rep.habitabilityProbability = rep'.habitabilityProbability :=
  ⟨_, _, calc_ok D M T P W B θ R G X hD hM hT hP hW hB hθ hR hG hX hprod,
    calc_ok D M' T P W B θ' R G X hD hM' hT hP hW hB hθ' hR hG hX hprod, rfl⟩

/-- C6 witness: the Earth-like profile with (M, θ) = (1, 23) and with
(M, θ) = (300, 98) scores the same. -/
theorem C6_mass_tilt_do_not_affect_score_witness :
    ∃ rep rep',
      calculate_planetary_parameters 1 1 288 1 1 (1 / 2) 23 24 1 (1 / 100) =
        .ok rep ∧
      calculate_planetary_parameters 1 300 288 1 1 (1 / 2) 98 24 1 (1 / 100) =
        .ok rep' ∧
      rep.habitabilityProbability = rep'.habitabilityProbability :=
  C6_mass_tilt_do_not_affect_score 1 288 1 1 (1 / 2) 24 1 (1 / 100) 1 300 23 98
    (by norm_num) (by norm_num) (by norm_num) (by norm_num) (by norm_num)
    (Or.inr rfl) (by norm_num) (by norm_num) (by norm_num) (by norm_num)
    (by norm_num) (by norm_num) earth_prod_ne_zero

/-- C7: any returned report carries the literal string Yes for W = 1
and No for W = 0 in its water-presence field. -/
theorem C7_water_echoed_yes_no (D M T P W B θ R G X : ℝ) (rep : Report)
    (h : calculate_planetary_parameters D M T P W B θ R G X = .ok rep) :
    (W = 1 → rep.waterPresence = "Yes") ∧
    (W = 0 → rep.waterPresence = "No") := by
  obtain ⟨-, -, -, -, -, -, -, -, -, -, -, hrep⟩ :=
    calc_ok_inv D M T P W B θ R G X rep h
  rw [hrep]
  constructor
  · intro h1
    exact if_pos h1
  · intro h0
    have hne : W ≠ 1 := by rw [h0]; norm_num
    exact if_neg hne

/-- C7 witness: the Earth-like profile with W = 1 reports Yes. -/
theorem C7_water_echoed_yes_no_witness :
    ∃ rep,
      calculate_planetary_parameters 1 1 288 1 1 (1 / 2) 23 24 1 (1 / 100) =
        .ok rep ∧ rep.waterPresence = "Yes" := by
  have h := calc_ok 1 1 288 1 1 (1 / 2) 23 24 1 (1 / 100)
    (by norm_num) (by norm_num) (by norm_num) (by norm_num) (Or.inr rfl)
    (by norm_num) (by norm_num) (by norm_num) (by norm_num) (by norm_num)
    earth_prod_ne_zero
  exact ⟨_, h,
    (C7_water_echoed_yes_no 1 1 288 1 1 (1 / 2) 23 24 1 (1 / 100) _ h).1 rfl⟩

/-- The clamp of the spec, worded as clamp(x, lo, hi). -/
def spec_clamp (x lo hi : ℝ) : ℝ := min hi (max lo x)

/-- C8: on the validated temperature range the temperature factor is
the clamped exponential of the spec, equals 1 exactly at T = 288, and
is strictly below 1 everywhere else. -/
theorem C8_temperature_factor (T : ℝ) (_hT : 50 ≤ T ∧ T ≤ 900) :
    f_T T = spec_clamp (Real.exp (-|T - 288| / 288)) 0 1 ∧
    (f_T T = 1 ↔ T = 288) ∧ (T ≠ 288 → f_T T < 1) :=
  ⟨rfl, f_T_eq_one_iff T, f_T_lt_one T⟩

/-- C8 witness: at the Earth reference temperature the factor is 1. -/
theorem C8_temperature_factor_witness : f_T 288 = 1 :=
  (C8_temperature_factor 288 (by norm_num)).2.1.mpr rfl

/-- C9: every successful call echoes the ten inputs unchanged (W as
Yes/No), and its single derived field is a two-decimal value inside
[0, 100]. -/
theorem C9_report_echo_and_bounds (D M T P W B θ R G X : ℝ) (rep : Report)
    (h : calculate_planetary_parameters D M T P W B θ R G X = .ok rep) :
    rep.distanceFromSun = D ∧ rep.planetaryMass = M ∧
    rep.surfaceTemperature = T ∧ rep.atmosphericPressure = P ∧
    rep.waterPresence = (if W = 1 then "Yes" else "No") ∧
    rep.magneticFieldStrength = B ∧ rep.axialTilt = θ ∧
    rep.rotationSpeed = R ∧ rep.geologicalActivity = G ∧
    rep.radiationLevels = X ∧
    (∃ n : ℤ, rep.habitabilityProbability = n / 100) ∧
    0 ≤ rep.habitabilityProbability ∧ rep.habitabilityProbability ≤ 100 := by
  obtain ⟨-, -, -, -, -, -, -, -, -, -, -, hrep⟩ :=
    calc_ok_inv D M T P W B θ R G X rep h
  rw [hrep]
  exact ⟨rfl, rfl, rfl, rfl, rfl, rfl, rfl, rfl, rfl, rfl,
    ⟨10000, by norm_num⟩, by norm_num, le_refl _⟩

/-- C9 witness: on the Earth-like profile the derived field lies in
[0, 100]. -/
theorem C9_report_echo_and_bounds_witness :
    ∃ rep,
      calculate_planetary_parameters 1 1 288 1 1 (1 / 2) 23 24 1 (1 / 100) =
        .ok rep ∧
      0 ≤ rep.habitabilityProbability ∧ rep.habitabilityProbability ≤ 100 := by
  have h := calc_ok 1 1 288 1 1 (1 / 2) 23 24 1 (1 / 100)
    (by norm_num) (by norm_num) (by norm_num) (by norm_num) (Or.inr rfl)
    (by norm_num) (by norm_num) (by norm_num) (by norm_num) (by norm_num)
    earth_prod_ne_zero
  obtain ⟨-, -, -, -, -, -, -, -, -, -, -, h12, h13⟩ :=
    C9_report_echo_and_bounds 1 1 288 1 1 (1 / 2) 23 24 1 (1 / 100) _ h
  exact ⟨_, h, h12, h13⟩

/-- C10: on validated inputs the factors f_T, f_P, f_X are strictly
positive, and the six-factor product vanishes exactly when W = 0,
B = 0, or G = 0; the reciprocal is therefore well-defined whenever W,
B, G are all nonzero. -/
theorem C10_product_zero_iff (T P W B G X : ℝ)
    (hT : 50 ≤ T ∧ T ≤ 900) (hP : 1 / 100000 ≤ P ∧ P ≤ 100)
    (hW : W = 0 ∨ W = 1) (hB : 0 ≤ B ∧ B ≤ 15) (hG : 0 ≤ G ∧ G ≤ 1)
    (hX : 1 / 100 ≤ X ∧ X ≤ 1000) :
    (0 < f_T T ∧ 0 < f_P P ∧ 0 < f_X X) ∧
    (f_T T * f_P P * W * f_B B * G * f_X X = 0 ↔
      W = 0 ∨ B = 0 ∨ G = 0) := by
  have hfT := f_T_pos T
  have hfP : 0 < f_P P := f_P_pos P (lt_of_lt_of_le (by norm_num) hP.1)
  have hfX := f_X_pos X
  refine ⟨⟨hfT, hfP, hfX⟩, ?_⟩
  simp only [mul_eq_zero, hfT.ne', hfP.ne', hfX.ne', false_or, or_false,
    f_B_eq_zero_iff B hB.1]
  tauto

/-- C10 witness: at the W = 0 profile values the product vanishes and
the three exponential/rational factors are still positive. -/
theorem C10_product_zero_iff_witness :
    0 < f_T 288 ∧
    f_T 288 * f_P 1 * (0 : ℝ) * f_B (1 / 2) * 1 * f_X (1 / 100) = 0 := by
  have h := C10_product_zero_iff 288 1 0 (1 / 2) 1 (1 / 100)
    (by norm_num) (by norm_num) (Or.inl rfl) (by norm_num) (by norm_num)
    (by norm_num)
  exact ⟨h.1.1, h.2.mpr (Or.inl rfl)⟩

end Habitability
